import Mathlib

/-!
Shallow embedding of the sensor-decoding core of the `tmt` repository
(`tmt_core`): the SMC binary codec (`src/smc/conv.rs`), the fan-control
guard logic (`src/smc/mod.rs`), Apple sensor discovery (`src/apple.rs`),
the Linux hwmon rate limiter (`src/linux.rs`), and the generic
`Interface::refresh` loop (`src/lib.rs`).

Modelling conventions:
* Rust machine integers are modelled as `Nat`/`Int` with explicit range
  hypotheses or `% 2^w` where overflow matters.
* Rust `f64` values are modelled as `ℚ`; the only `f64` operations the
  embedded code performs are comparisons, multiplication/division by
  powers of two, and truncating casts to integers, all of which are exact
  on the rationals for the ranges involved (`NaN`/`-0.0` corner cases are
  noted where relevant).
* `FourCharCode` values are modelled as their four-character `String`
  (the Rust type is a `u32` in bijection with such strings; the code only
  compares codes for equality and renders them as strings).
* Rust `panic!` is modelled explicitly: the codec trait
  `SmcType::from_smc / to_smc` has no error channel at all, so every
  failure in `conv.rs` is a process-aborting panic.  The constructor
  `ConvResult.panicked` records the panic format string and the
  `DataType` argument interpolated into it (`none` when the panic message
  has no `{:?}` argument).
-/

set_option autoImplicit false

namespace Tmt

/-! ### Character-list string primitives

The Rust string operations used by the embedded code (`starts_with`,
`ends_with`, `strip` of a prefix, `trim`, `replace`, `parse::<u32>`) are
modelled on the character list of a `String`, so that every definition
reduces inside the kernel. -/

/-- Model of `str::starts_with` on strings. -/
def startsWithS (s p : String) : Bool := p.data.isPrefixOf s.data

/-- Model of `str::ends_with` on strings. -/
def endsWithS (s p : String) : Bool := p.data.isSuffixOf s.data

/-- Drop the first `n` characters (the ASCII prefixes stripped by the
code make byte and character counts agree). -/
def dropS (s : String) (n : Nat) : String := String.mk (s.data.drop n)

/-- Model of `str::trim`: strip leading and trailing whitespace. -/
def trimList (l : List Char) : List Char :=
  ((l.dropWhile Char.isWhitespace).reverse.dropWhile Char.isWhitespace).reverse

/-- Model of `str::trim` on strings. -/
def trimS (s : String) : String := String.mk (trimList s.data)

/-- Leftmost, non-overlapping replacement of a non-empty pattern
(`str::replace`; the sysfs code only replaces the literal `"_input"`). -/
def replaceGo (p r : List Char) : List Char → List Char
  | [] => []
  | c :: rest =>
    if (c :: rest).take p.length = p ∧ p ≠ [] then
      r ++ replaceGo p r (rest.drop (p.length - 1))
    else
      c :: replaceGo p r rest
termination_by l => l.length
decreasing_by
  · simp only [List.length_cons, List.length_drop]
    omega
  · simp only [List.length_cons]
    omega

/-- Model of `str::replace` on strings. -/
def replaceS (s p r : String) : String := String.mk (replaceGo p.data r.data s.data)

/-- Decimal parse of a digit list (the digits-only core of
`str::parse`). -/
def digitsToNat (l : List Char) : Option Nat :=
  if l ≠ [] ∧ l.all Char.isDigit then
    some (l.foldl (fun a c => 10 * a + (c.toNat - 48)) 0)
  else none

/-- Model of `DataType` from `src/smc/mod.rs`: a four-character type tag
(`id`, modelled as the tag's string) together with the declared byte
size. -/
structure DataType where
  id : String
  size : Nat
  deriving DecidableEq, Repr

/-- Model of `SmcBytes` (`[u8; 32]`): the fixed 32-byte data buffer is a
list of byte values; all encoders produce a list of length 32 and all
decoders read bytes with `byte` below (absent positions read as 0). -/
abbrev SmcBytes := List Nat

/-- Read byte `i` of a buffer (missing positions are 0, matching the
zero-initialised `SmcBytes::default()` padding of the Rust array). -/
def byte (b : SmcBytes) (i : Nat) : Nat := b.getD i 0

/-- Pad an encoded prefix to the full 32-byte buffer with zeros, the way
`SmcBytes::default()` zero-initialises the array before `memcpy`. -/
def padTo32 (l : List Nat) : SmcBytes := l ++ List.replicate (32 - l.length) 0

/-- Outcome of an `SmcType` conversion.  The Rust trait returns `Self`
(resp. `SmcBytes`) and signals every failure with `panic!`; `panicked`
models those panics, carrying the panic format string and the `DataType`
that the source interpolates with `{:?}` (when any). -/
inductive ConvResult (α : Type) where
  | ok (value : α)
  | panicked (msg : String) (tag : Option DataType)
  deriving DecidableEq, Repr

/-- True exactly on the `panicked` outcome. -/
def ConvResult.isPanic {α : Type} : ConvResult α → Bool
  | .ok _ => false
  | .panicked _ _ => true

/- The four-character type tags from `src/smc/conv.rs`. -/

/-- Tag `"flag"`. -/
def TYPE_FLAG : String := "flag"
/-- Tag `"si8 "`. -/
def TYPE_I8 : String := "si8 "
/-- Tag `"ui8 "`. -/
def TYPE_U8 : String := "ui8 "
/-- Tag `"si16"`. -/
def TYPE_I16 : String := "si16"
/-- Tag `"ui16"`. -/
def TYPE_U16 : String := "ui16"
/-- Tag `"si32"`. -/
def TYPE_I32 : String := "si32"
/-- Tag `"ui32"`. -/
def TYPE_U32 : String := "ui32"
/-- Tag `"fpe2"`. -/
def TYPE_FPE2 : String := "fpe2"
/-- Tag `"sp78"`. -/
def TYPE_SP78 : String := "sp78"
/-- Tag `"\x7bfds"` (the fan-descriptor tag). -/
def TYPE_FAN : String := "\x7bfds"
/-- Tag `"flt "`. -/
def TYPE_FLT : String := "flt "

/-- Panic format string `"Cannot convert {:?} to <t>"` used by the
decoders (the brace placeholder is kept verbatim; the interpolated
`DataType` travels in the `panicked` constructor's second field). -/
def msgConvertTo (t : String) : String := "Cannot convert \x7b:?\x7d to " ++ t

/-- Panic format string `"Cannot convert <t> to {:?}"` used by the
encoders. -/
def msgConvertFrom (t : String) : String := "Cannot convert " ++ t ++ " to \x7b:?\x7d"

/-- Big-endian reassembly of the first two buffer bytes, as
`u16::from_be` on the memcpy'd prefix. -/
def u16FromBE (b : SmcBytes) : Nat := 256 * byte b 0 + byte b 1

/-- Big-endian reassembly of the first four buffer bytes
(`u32::from_be`). -/
def u32FromBE (b : SmcBytes) : Nat :=
  256 * (256 * (256 * byte b 0 + byte b 1) + byte b 2) + byte b 3

/-- Two's-complement reading of an 8-bit value (`i8` reinterpretation of
a byte). -/
def toSigned8 (n : Nat) : Int := if n < 128 then (n : Int) else (n : Int) - 256

/-- Two's-complement reading of a 16-bit value. -/
def toSigned16 (n : Nat) : Int := if n < 32768 then (n : Int) else (n : Int) - 65536

/-- Two's-complement reading of a 32-bit value. -/
def toSigned32 (n : Nat) : Int :=
  if n < 2147483648 then (n : Int) else (n : Int) - 4294967296

/-- Big-endian bytes of a 16-bit value (`to_be` followed by memcpy of
both bytes). -/
def be16 (n : Nat) : List Nat := [n / 256, n % 256]

/-- Big-endian bytes of a 32-bit value. -/
def be32 (n : Nat) : List Nat := [n / 16777216, n / 65536 % 256, n / 256 % 256, n % 256]

/-- Two's-complement 16-bit image of a signed value (`i16` stored by
`to_be` + memcpy); `Int.emod` always lands in `[0, 65536)`. -/
def toUnsigned16 (v : Int) : Nat := (v % 65536).toNat

/-- Two's-complement 8-bit image of a signed value. -/
def toUnsigned8 (v : Int) : Nat := (v % 256).toNat

/-- Two's-complement 32-bit image of a signed value. -/
def toUnsigned32 (v : Int) : Nat := (v % 4294967296).toNat

/-- Model of `<bool as SmcType>::to_smc`: accepts the `flag` and `ui8 `
tags, writing `u8::from(*self)` into byte 0; panics otherwise. -/
def bool_to_smc (x : Bool) (dt : DataType) : ConvResult SmcBytes :=
  if dt.id = TYPE_FLAG ∨ dt.id = TYPE_U8 then
    .ok (padTo32 [if x then 1 else 0])
  else
    .panicked (msgConvertFrom "bool") (some dt)

/-- Model of `<bool as SmcType>::from_smc`: byte 0 is nonzero. -/
def bool_from_smc (dt : DataType) (b : SmcBytes) : ConvResult Bool :=
  if dt.id = TYPE_FLAG ∨ dt.id = TYPE_U8 then
    .ok (byte b 0 != 0)
  else
    .panicked (msgConvertTo "bool") (some dt)

/-- Model of `<u8 as SmcType>::to_smc`. -/
def u8_to_smc (x : Nat) (dt : DataType) : ConvResult SmcBytes :=
  if dt.id = TYPE_U8 then .ok (padTo32 [x])
  else .panicked (msgConvertFrom "u8") (some dt)

/-- Model of `<u8 as SmcType>::from_smc`. -/
def u8_from_smc (dt : DataType) (b : SmcBytes) : ConvResult Nat :=
  if dt.id = TYPE_U8 then .ok (byte b 0)
  else .panicked (msgConvertTo "u8") (some dt)

/-- Model of `<i8 as SmcType>::to_smc` (single-byte memcpy of the two's
complement representation). -/
def i8_to_smc (x : Int) (dt : DataType) : ConvResult SmcBytes :=
  if dt.id = TYPE_I8 then .ok (padTo32 [toUnsigned8 x])
  else .panicked (msgConvertFrom "i8") (some dt)

/-- Model of `<i8 as SmcType>::from_smc`. -/
def i8_from_smc (dt : DataType) (b : SmcBytes) : ConvResult Int :=
  if dt.id = TYPE_I8 then .ok (toSigned8 (byte b 0))
  else .panicked (msgConvertTo "i8") (some dt)

/-- Model of `<u16 as SmcType>::to_smc` (`to_be` + memcpy of both
bytes). -/
def u16_to_smc (x : Nat) (dt : DataType) : ConvResult SmcBytes :=
  if dt.id = TYPE_U16 then .ok (padTo32 (be16 x))
  else .panicked (msgConvertFrom "u16") (some dt)

/-- Model of `<u16 as SmcType>::from_smc`: accepts `ui8 ` via the
widening fallback (`Self::from(<u8>::from_smc(..))`) and `ui16`
directly; panics on any other tag. -/
def u16_from_smc (dt : DataType) (b : SmcBytes) : ConvResult Nat :=
  if dt.id = TYPE_U8 then .ok (byte b 0)
  else if dt.id = TYPE_U16 then .ok (u16FromBE b)
  else .panicked (msgConvertTo "u16") (some dt)

/-- Model of `<i16 as SmcType>::to_smc`. -/
def i16_to_smc (x : Int) (dt : DataType) : ConvResult SmcBytes :=
  if dt.id = TYPE_I16 then .ok (padTo32 (be16 (toUnsigned16 x)))
  else .panicked (msgConvertFrom "i16") (some dt)

/-- Model of `<i16 as SmcType>::from_smc`: accepts only `si16` — the
signed decoders have no widening fallback. -/
def i16_from_smc (dt : DataType) (b : SmcBytes) : ConvResult Int :=
  if dt.id = TYPE_I16 then .ok (toSigned16 (u16FromBE b))
  else .panicked (msgConvertTo "i16") (some dt)

/-- Model of `<u32 as SmcType>::to_smc`. -/
def u32_to_smc (x : Nat) (dt : DataType) : ConvResult SmcBytes :=
  if dt.id = TYPE_U32 then .ok (padTo32 (be32 x))
  else .panicked (msgConvertFrom "u32") (some dt)

/-- Model of `<u32 as SmcType>::from_smc`: accepts `ui8 ` and `ui16` via
the widening fallbacks and `ui32` directly; panics on any other tag. -/
def u32_from_smc (dt : DataType) (b : SmcBytes) : ConvResult Nat :=
  if dt.id = TYPE_U8 then .ok (byte b 0)
  else if dt.id = TYPE_U16 then .ok (u16FromBE b)
  else if dt.id = TYPE_U32 then .ok (u32FromBE b)
  else .panicked (msgConvertTo "u32") (some dt)

/-- Model of `<i32 as SmcType>::to_smc`. -/
def i32_to_smc (x : Int) (dt : DataType) : ConvResult SmcBytes :=
  if dt.id = TYPE_I32 then .ok (padTo32 (be32 (toUnsigned32 x)))
  else .panicked (msgConvertFrom "i32") (some dt)

/-- Model of `<i32 as SmcType>::from_smc`: accepts only `si32`. -/
def i32_from_smc (dt : DataType) (b : SmcBytes) : ConvResult Int :=
  if dt.id = TYPE_I32 then .ok (toSigned32 (u32FromBE b))
  else .panicked (msgConvertTo "i32") (some dt)

/-- Model of `read_string` from `src/smc/conv.rs`: scan at most `max`
bytes, stop at the first NUL, decode as a string and trim surrounding
whitespace. -/
def read_string (bytes : List Nat) (max : Nat) : String :=
  let window := bytes.take max
  let untilNul := window.takeWhile (fun v => v ≠ 0)
  trimS (String.mk (untilNul.map Char.ofNat))

/-- Model of a decoded `RawFan` (its `name` field). -/
structure RawFan where
  name : String
  deriving DecidableEq, Repr

/-- Model of `<RawFan as SmcType>::to_smc`: writing a fan descriptor is
unsupported; the source unconditionally panics with the dedicated
message `"You can't write a RawFan type"` (which interpolates no
tag). -/
def rawfan_to_smc (_dt : DataType) : ConvResult SmcBytes :=
  .panicked "You can't write a RawFan type" none

/-- Model of `<RawFan as SmcType>::from_smc`: on the fan tag, read the
NUL-terminated, trimmed name starting at byte 4 with window
`size - 4`; panic on any other tag.  (The `data_type.size - 4`
subtraction is `u32` arithmetic in Rust; it is modelled with truncated
`Nat` subtraction, which agrees for every well-formed descriptor with
`size ≥ 4`.) -/
def rawfan_from_smc (dt : DataType) (b : SmcBytes) : ConvResult RawFan :=
  if dt.id = TYPE_FAN then .ok ⟨read_string (b.drop 4) (dt.size - 4)⟩
  else .panicked (msgConvertTo "RawFan") (some dt)

/-- Truncation toward zero of a rational, the rounding performed by
Rust's float-to-integer `as` casts. -/
def ratTrunc (q : ℚ) : Int := if 0 ≤ q then ⌊q⌋ else ⌈q⌉

/-- Model of Rust's saturating `f64 as u16` cast: truncate toward zero
and clamp into `[0, 65535]`. -/
def f64AsU16 (q : ℚ) : Nat :=
  if q ≤ 0 then 0
  else if (65535 : ℚ) ≤ q then 65535
  else (ratTrunc q).toNat

/-- Model of Rust's saturating `f64 as i16` cast: truncate toward zero
and clamp into `[-32768, 32767]`. -/
def f64AsI16 (q : ℚ) : Int :=
  if q ≤ -32768 then -32768
  else if (32767 : ℚ) ≤ q then 32767
  else ratTrunc q

/-- Exact value of an IEEE-754 binary32 bit pattern given its four
native-order (little-endian) bytes; infinities and NaNs, which have no
rational value, are mapped to 0.  This models
`f32::from_ne_bytes(buf)` in the `flt ` decode branch. -/
def f32FromBytes (b0 b1 b2 b3 : Nat) : ℚ :=
  let bits : Nat := b0 + 256 * (b1 + 256 * (b2 + 256 * b3))
  let sign : ℚ := if bits / 2 ^ 31 % 2 = 1 then -1 else 1
  let expo : Nat := bits / 2 ^ 23 % 256
  let frac : Nat := bits % 2 ^ 23
  if expo = 0 then sign * (frac : ℚ) / 2 ^ 149
  else if expo = 255 then 0
  else sign * ((2 ^ 23 + frac : Nat) : ℚ) * (2 : ℚ) ^ (expo : Int) / (2 : ℚ) ^ (150 : Int)

/-- Model of the `def_float!`-generated `to_smc` (instantiated at both
`f32` and `f64`; `tname` is the `stringify!($t)` text in the panic
messages).  `fpe2`: reject sign-negative inputs with a panic, then store
`(x * 4.0) as u16` big-endian.  `sp78`: store `(x * 256.0) as i16`
big-endian.  `flt `: store the 4 native-order bytes of `x as f32` — the
IEEE round-to-nearest byte image is abstracted as zero bytes here (no
theorem in this development concerns the `flt ` encode payload); the
branch structure (no panic) is what matters for the claims.  Any other
tag panics. -/
def float_to_smc (tname : String) (x : ℚ) (dt : DataType) : ConvResult SmcBytes :=
  if dt.id = TYPE_FPE2 then
    if x < 0 then
      .panicked ("Cannot convert negative " ++ tname ++ " to fpe2") none
    else
      .ok (padTo32 (be16 (f64AsU16 (x * 4))))
  else if dt.id = TYPE_SP78 then
    .ok (padTo32 (be16 (toUnsigned16 (f64AsI16 (x * 256)))))
  else if dt.id = TYPE_FLT then
    .ok (padTo32 [0, 0, 0, 0])
  else
    .panicked (msgConvertFrom tname) (some dt)

/-- Model of the `def_float!`-generated `from_smc`.  `fpe2`: big-endian
`u16` of the first two bytes divided by 4.  `sp78`: big-endian `i16`
divided by 256.  `flt `: IEEE binary32 value of the first four bytes.
Any other tag panics. -/
def float_from_smc (tname : String) (dt : DataType) (b : SmcBytes) : ConvResult ℚ :=
  if dt.id = TYPE_FPE2 then
    .ok ((u16FromBE b : ℚ) / 4)
  else if dt.id = TYPE_SP78 then
    .ok ((toSigned16 (u16FromBE b) : ℚ) / 256)
  else if dt.id = TYPE_FLT then
    .ok (f32FromBytes (byte b 0) (byte b 1) (byte b 2) (byte b 3))
  else
    .panicked (msgConvertTo tname) (some dt)

/-- The `f64` instantiation of the float codec (the fan and temperature
paths read and write `f64`). -/
def f64_to_smc (x : ℚ) (dt : DataType) : ConvResult SmcBytes := float_to_smc "f64" x dt

/-- The `f64` instantiation of the float decoder. -/
def f64_from_smc (dt : DataType) (b : SmcBytes) : ConvResult ℚ := float_from_smc "f64" dt b

/-! ### Platform masks and `read_platform` (`src/apple.rs`) -/

/-- Bit for Intel-based Macs (`Platform::INTEL = 1 << 0`). -/
def INTEL : Nat := 1
/-- Bit for the Apple M1 SoC (`1 << 1`). -/
def M1 : Nat := 2
/-- Bit for the Apple M1 Pro SoC (`1 << 2`). -/
def M1_PRO : Nat := 4
/-- Bit for the Apple M1 Max SoC (`1 << 3`). -/
def M1_MAX : Nat := 8
/-- Bit for the Apple M1 Ultra SoC (`1 << 4`). -/
def M1_ULTRA : Nat := 16
/-- Bit for the Apple M2 SoC (`1 << 5`). -/
def M2 : Nat := 32
/-- Union of the M1-series bits (`Platform::ALL_M1`). -/
def ALL_M1 : Nat := M1 ||| M1_PRO ||| M1_MAX ||| M1_ULTRA
/-- Union of every Apple Silicon bit (`Platform::APPLE_SILICON`). -/
def APPLE_SILICON : Nat := ALL_M1 ||| M2
/-- `Platform::all()`: every defined flag bit. -/
def PLATFORM_ALL : Nat := INTEL ||| M1 ||| M1_PRO ||| M1_MAX ||| M1_ULTRA ||| M2

/-- Model of `bitflags`' `self.contains(other)`: every bit of `other` is
set in `self`. -/
def platformContains (self other : Nat) : Bool := self &&& other = other

/-- Model of `read_platform` from `src/apple.rs`, as a function of the
cached processor-brand string `CPU_NAME`: strings not starting with
`"Apple M"` map to `INTEL`; the five known suffixes after stripping that
prefix map to their masks; every other suffix also maps to `INTEL`.  The
`match` on the stripped suffix is rendered as an if-chain of string
equalities. -/
def read_platform (cpuName : String) : Nat :=
  if startsWithS cpuName "Apple M" then
    let suffix := dropS cpuName 7
    if suffix = "1" then M1
    else if suffix = "1 Pro" then M1_PRO
    else if suffix = "1 Max" then M1_MAX
    else if suffix = "1 Ultra" then M1_ULTRA
    else if suffix = "2" then M2
    else INTEL
  else INTEL

/-! ### SMC errors and the driver-call outcome shape (`src/smc/mod.rs`) -/

/-- Model of `SmcError`. -/
inductive SmcError where
  | DriverNotFound
  | FailedToOpen
  | KeyNotFound (code : String)
  | NotPrivileged
  | UnsafeFanSpeed
  | Unknown (ioResult : Int) (smcResult : Nat)
  | Sysctl (errno : Int)
  deriving DecidableEq, Repr

/-- Errors that a single `SmcRepr::call_driver` exchange can produce:
its `match (result, output.result)` returns only `KeyNotFound`,
`NotPrivileged`, or `Unknown` (never `UnsafeFanSpeed`, which is raised
exclusively by the fan-speed guards). -/
inductive CallErr where
  | keyNotFound (key : String)
  | notPrivileged
  | unknown (ioResult : Int) (smcResult : Nat)
  deriving DecidableEq, Repr

/-- Embedding of a driver-call error into `SmcError`. -/
def CallErr.toSmc : CallErr → SmcError
  | .keyNotFound k => .KeyNotFound k
  | .notPrivileged => .NotPrivileged
  | .unknown a b => .Unknown a b

/-! ### Fan control (`Fan` in `src/smc/mod.rs`)

The privileged driver session is modelled by a deterministic oracle
giving, for each key, the outcome of the `GetKeyInfo`, `ReadKey` and
`WriteKey` exchanges.  Every fan operation additionally returns the
trace of driver exchanges it issued, so that "no hardware write is
attempted" is a statement about the trace. -/

/-- One driver exchange, tagged by selector and key. -/
inductive DrvOp where
  | getInfo (key : String)
  | readOp (key : String)
  | writeOp (key : String)
  deriving DecidableEq, Repr

/-- Oracle for the driver session as seen by the fan code. -/
structure FanOracle where
  keyInfo : String → Except CallErr DataType
  readBytes : String → Except CallErr SmcBytes
  writeRes : String → Except CallErr Unit

/-- Outcome of a fan operation: success, a recoverable `SmcError`, or a
process-aborting panic escaping from the codec layer. -/
inductive FanOut (α : Type) where
  | ok (value : α)
  | err (e : SmcError)
  | panicked (msg : String)
  deriving DecidableEq, Repr

/-- Model of `FanMode`. -/
inductive FanMode where
  | Auto
  | Forced
  deriving DecidableEq, Repr

/-- Model of the `Fan` struct's plain data (the ref-counted session
handle is replaced by the oracle argument of each operation). -/
structure Fan where
  id : Nat
  name : String
  mode : FanMode
  min_speed : ℚ
  max_speed : ℚ
  deriving DecidableEq, Repr

/-- Model of `fcc_format!("F{}..", id)`-style key construction. -/
def fanKey (id : Nat) (suffix : String) : String := "F" ++ toString id ++ suffix

/-- Model of `SmcRepr::write_key` for an `f64` payload: a `GetKeyInfo`
exchange, then `to_smc` (whose panic aborts before any write), then the
`WriteKey` exchange. -/
def write_key_f64 (o : FanOracle) (key : String) (x : ℚ) :
    FanOut Unit × List DrvOp :=
  match o.keyInfo key with
  | .error ce => (.err ce.toSmc, [.getInfo key])
  | .ok info =>
    match f64_to_smc x info with
    | .panicked m _ => (.panicked m, [.getInfo key])
    | .ok _bytes =>
      match o.writeRes key with
      | .error ce => (.err ce.toSmc, [.getInfo key, .writeOp key])
      | .ok _ => (.ok (), [.getInfo key, .writeOp key])

/-- Model of `SmcRepr::write_key` for a `u16` payload. -/
def write_key_u16 (o : FanOracle) (key : String) (x : Nat) :
    FanOut Unit × List DrvOp :=
  match o.keyInfo key with
  | .error ce => (.err ce.toSmc, [.getInfo key])
  | .ok info =>
    match u16_to_smc x info with
    | .panicked m _ => (.panicked m, [.getInfo key])
    | .ok _bytes =>
      match o.writeRes key with
      | .error ce => (.err ce.toSmc, [.getInfo key, .writeOp key])
      | .ok _ => (.ok (), [.getInfo key, .writeOp key])

/-- Model of `SmcRepr::write_key` for a `FanMode` payload
(`<FanMode as SmcType>::to_smc` delegates to the `bool` encoder on
`mode == Forced`). -/
def write_key_mode (o : FanOracle) (key : String) (mode : FanMode) :
    FanOut Unit × List DrvOp :=
  match o.keyInfo key with
  | .error ce => (.err ce.toSmc, [.getInfo key])
  | .ok info =>
    match bool_to_smc (mode = FanMode.Forced) info with
    | .panicked m _ => (.panicked m, [.getInfo key])
    | .ok _bytes =>
      match o.writeRes key with
      | .error ce => (.err ce.toSmc, [.getInfo key, .writeOp key])
      | .ok _ => (.ok (), [.getInfo key, .writeOp key])

/-- Model of `SmcRepr::read_key::<u16>`: `GetKeyInfo`, then `ReadKey`,
then `from_smc` (which may panic on a tag mismatch). -/
def read_key_u16 (o : FanOracle) (key : String) : FanOut Nat × List DrvOp :=
  match o.keyInfo key with
  | .error ce => (.err ce.toSmc, [.getInfo key])
  | .ok info =>
    match o.readBytes key with
    | .error ce => (.err ce.toSmc, [.getInfo key, .readOp key])
    | .ok bytes =>
      match u16_from_smc info bytes with
      | .panicked m _ => (.panicked m, [.getInfo key, .readOp key])
      | .ok v => (.ok v, [.getInfo key, .readOp key])

/-- Model of `Fan::write_managed`: read the `"FS! "` bitmask, flip bit
`id` to the requested managed state, and only issue the write when the
bitmask actually changes.  (`1u16 << id` is modelled modulo `2^16`.) -/
def write_managed (o : FanOracle) (id : Nat) (what : Bool) :
    FanOut Unit × List DrvOp :=
  match read_key_u16 o "FS! " with
  | (.err e, tr) => (.err e, tr)
  | (.panicked m, tr) => (.panicked m, tr)
  | (.ok bitmask, tr) =>
    let mask := 2 ^ id % 65536
    let new := if what then bitmask &&& (65535 ^^^ mask) else bitmask ||| mask
    if bitmask = new then (.ok (), tr)
    else
      match write_key_u16 o "FS! " new with
      | (r, tr2) => (r, tr ++ tr2)

/-- Model of `Fan::set_mode`: try the primary `F{id}Md` key; on a
recoverable error fall back to `write_managed(mode == Auto)`; on success
record the new mode in the struct. -/
def set_mode (o : FanOracle) (fan : Fan) (mode : FanMode) :
    FanOut Fan × List DrvOp :=
  match write_key_mode o (fanKey fan.id "Md") mode with
  | (.ok _, tr) => (.ok { fan with mode := mode }, tr)
  | (.panicked m, tr) => (.panicked m, tr)
  | (.err _, tr) =>
    match write_managed o fan.id (mode = FanMode.Auto) with
    | (.ok _, tr2) => (.ok { fan with mode := mode }, tr ++ tr2)
    | (.err e, tr2) => (.err e, tr ++ tr2)
    | (.panicked m, tr2) => (.panicked m, tr ++ tr2)

/-- Model of `Fan::set_current_speed`: the `UnsafeFanSpeed` guard
(`speed <= min_speed || speed > max_speed`) rejects before any driver
exchange; on acceptance, force the mode first, then write the `F{id}Tg`
target key. -/
def set_current_speed (o : FanOracle) (fan : Fan) (speed : ℚ) :
    FanOut Fan × List DrvOp :=
  if speed ≤ fan.min_speed ∨ speed > fan.max_speed then
    (.err SmcError.UnsafeFanSpeed, [])
  else
    match set_mode o fan FanMode.Forced with
    | (.ok fan2, tr) =>
      match write_key_f64 o (fanKey fan.id "Tg") speed with
      | (.ok _, tr2) => (.ok fan2, tr ++ tr2)
      | (.err e, tr2) => (.err e, tr ++ tr2)
      | (.panicked m, tr2) => (.panicked m, tr ++ tr2)
    | (.err e, tr) => (.err e, tr)
    | (.panicked m, tr) => (.panicked m, tr)

/-! ### `Smc::temperature` (`src/smc/mod.rs`)

The returned flag records whether a `ReadKey` driver exchange was
attempted. -/

/-- Oracle for the session as used by `Smc::temperature`
(deterministic: repeated `GetKeyInfo` exchanges for the same key return
the same answer, which is how `read_key` re-queries the type info). -/
structure SmcOracle where
  keyInfo : String → Except SmcError DataType
  readBytes : String → Except SmcError SmcBytes

/-- Model of `Smc::temperature`: keys whose string does not start with
`'T'` are rejected as `KeyNotFound` with no driver exchange; otherwise
the type info is queried, and only the `sp78`/`flt ` tags proceed to
`read_key::<f64>` (which re-queries the info, then reads); any other tag
is rejected as `KeyNotFound` even though the key exists.  The second
component records whether a `ReadKey` exchange was attempted. -/
def smc_temperature (o : SmcOracle) (key : String) : FanOut ℚ × Bool :=
  if startsWithS key "T" then
    match o.keyInfo key with
    | .error e => (.err e, false)
    | .ok info =>
      if info.id = TYPE_SP78 ∨ info.id = TYPE_FLT then
        match o.keyInfo key with
        | .error e => (.err e, false)
        | .ok info2 =>
          match o.readBytes key with
          | .error e => (.err e, true)
          | .ok bytes =>
            match f64_from_smc info2 bytes with
            | .panicked m _ => (.panicked m, true)
            | .ok v => (.ok v, true)
      else
        (.err (SmcError.KeyNotFound key), false)
  else
    (.err (SmcError.KeyNotFound key), false)

/-! ### Apple sensor discovery (`AppleComponents::new`, `src/apple.rs`) -/

/-- Model of `ComponentType` (`src/lib.rs`). -/
inductive ComponentType where
  | Cpu
  | Gpu
  | Battery
  | FanType
  | Motherboard
  | SensorType
  | SystemType
  deriving DecidableEq, Repr

/-- Model of `SensorKind` (`src/apple.rs`). -/
inductive SensorKind where
  | Temperature
  | Voltage
  | Current
  | Power
  | FanSpeed
  | Energy
  deriving DecidableEq, Repr

/-- Model of the static `Sensor` catalog-entry struct (the fields the
discovery filter consults). -/
structure Sensor where
  key : String
  name : String
  kind : SensorKind
  platforms : Nat
  average : Bool
  component_type : ComponentType
  deriving DecidableEq, Repr

/-- Model of a live `AppleCpuComponent`/`AppleGpuComponent` body: the
bound catalog entry plus the cached reading and running maximum. -/
structure AppleComponentSt where
  sensor : Sensor
  previous : ℚ
  maxSeen : ℚ
  deriving DecidableEq, Repr

/-- Oracle for everything `AppleComponents::new` obtains from the
outside world: the result of opening the session (`Smc::new`), the
result of enumerating the live keys (`Smc::keys`), the per-key result of
`Smc::temperature` (which drives each component's `refresh`), and the
cached processor-brand string. -/
structure AppleOracle where
  newRes : Except SmcError Unit
  keysRes : Except SmcError (List String)
  temp : String → Except SmcError ℚ

/-- Model of a component `refresh()` (`xpu_component_impl!`): read the
temperature for the bound key; on success update `previous` and fold it
into the running maximum; an error propagates and leaves the component
untouched. -/
def appleRefresh (o : AppleOracle) (c : AppleComponentSt) :
    Except SmcError AppleComponentSt :=
  match o.temp c.sensor.key with
  | .error e => .error e
  | .ok v => .ok { c with previous := v, maxSeen := max c.maxSeen v }

/-- Per-catalog-entry step of the `filter_map` in `AppleComponents::new`:
an entry survives only if its key is in the live key set, its platform
mask contains the host mask, its component type is `Cpu` or `Gpu`, and
its initial `refresh()` succeeds; every failure yields `none` (the entry
is silently dropped). -/
def appleSelect (o : AppleOracle) (keys : List String) (platform : Nat)
    (s : Sensor) : Option (Sensor × AppleComponentSt) :=
  if keys.contains s.key ∧ platformContains s.platforms platform then
    match s.component_type with
    | .Cpu =>
      match appleRefresh o ⟨s, 0, 0⟩ with
      | .ok c => some (s, c)
      | .error _ => none
    | .Gpu =>
      match appleRefresh o ⟨s, 0, 0⟩ with
      | .ok c => some (s, c)
      | .error _ => none
    | _ => none
  else none

/-- Model of `AppleComponents::new`, parametrised by the sensor catalog:
open the session (propagating its error), enumerate the live keys
(propagating that error too), then keep the catalog entries that survive
`appleSelect` under the host platform derived from the brand string. -/
def appleNew (o : AppleOracle) (cpuName : String) (catalog : List Sensor) :
    Except SmcError (List (Sensor × AppleComponentSt)) :=
  match o.newRes with
  | .error e => .error e
  | .ok _ =>
    match o.keysRes with
    | .error e => .error e
    | .ok keys =>
      .ok (catalog.filterMap (appleSelect o keys (read_platform cpuName)))

/-! ### Linux hwmon rate limiting (`src/linux.rs`) -/

/-- Model of `LinuxError`.  The payload of an I/O error is irrelevant to
the claims, so `ioError` carries no data. -/
inductive LinuxError where
  | ioError
  | invalidData (msg : String)
  deriving DecidableEq, Repr

/-- Model of one cached `TemperatureReading` (millidegree integers). -/
structure Reading where
  name : String
  temperature : Nat
  maxSeen : Nat
  high : Nat
  crit : Nat
  deriving DecidableEq, Repr

/-- Model of the chip's directory as `read_temperatures` sees it:
the `device/power_state` file (absent, or its content — a read failure
collapses to `""` via `unwrap_or_default`), the directory entries (with
`none` for a non-UTF-8 file name), and the contents of the readable
files in the chip directory. -/
structure HwmonFs where
  powerState : Option String
  entries : List (Option String)
  readFile : String → Option String

/-- Model of the mutable `HwmonSensor` state consulted by
`should_read`/`read_temperatures` (`path`/`device_path` are folded into
the `HwmonFs` argument; instants are rationals). -/
structure HwmonState where
  chipName : Option String
  update_interval : ℚ
  last_update : ℚ
  wait : Bool
  readings : List (String × Reading)
  deriving DecidableEq, Repr

/-- Model of Rust's `str::parse::<u32>` on an already-trimmed string:
decimal digits only, rejecting values outside `u32` range.  (Rust also
accepts a leading `+`, which never occurs in sysfs millidegree files.) -/
def parseU32 (s : String) : Option Nat :=
  match digitsToNat s.data with
  | some n => if n < 4294967296 then some n else none
  | none => none

/-- Model of `HwmonSensor::should_read`: a chip already read once
(`wait`) whose elapsed time is under its interval is skipped; otherwise,
when a `power_state` file exists, only contents trimming to `"D0"` or
`"unknown"` allow the read. -/
def should_read (st : HwmonState) (now : ℚ) (fs : HwmonFs) : Bool :=
  if st.wait ∧ now - st.last_update < st.update_interval then false
  else
    match fs.powerState with
    | some state => trimS state = "D0" ∨ trimS state = "unknown"
    | none => true

/-- Upsert into the readings map (`HashMap::insert`, modelled on an
association list: replace the entry with the same label or append). -/
def upsert (m : List (String × Reading)) (k : String) (v : Reading) :
    List (String × Reading) :=
  match m with
  | [] => [(k, v)]
  | (k0, v0) :: rest => if k0 = k then (k, v) :: rest else (k0, v0) :: upsert rest k v

/-- Body of the `read_dir` loop of `read_temperatures`: walk the entries
in order; a non-UTF-8 name is a hard `InvalidData` error; each
`temp*_input` file is read (I/O and parse failures are hard errors,
aborting the loop with the upserts made so far kept, exactly like the
in-place `HashMap` mutation in Rust), its label derived from the chip
name and the optional `_label` file, and its `_highest`/`_max`/`_crit`
companions read with defaults 0 / 85000 / 100000. -/
def scanEntries (fs : HwmonFs) (chipName : Option String) :
    List (Option String) → List (String × Reading) →
    Except LinuxError (List (String × Reading)) × List (String × Reading)
  | [], acc => (.ok acc, acc)
  | none :: _, acc =>
    (.error (.invalidData "hwmon sensor had a non-ascii device filename"), acc)
  | some nm :: rest, acc =>
    if startsWithS nm "temp" ∧ endsWithS nm "_input" then
      match fs.readFile nm with
      | none => (.error .ioError, acc)
      | some content =>
        match parseU32 (trimS content) with
        | none => (.error (.invalidData ("read invalid temperature " ++ content)), acc)
        | some t =>
          let label := fs.readFile (replaceS nm "_input" "_label")
          let name :=
            match chipName, label with
            | some n, some l => n ++ ": " ++ l
            | some n, none => n
            | none, some l => l
            | none, none => "Unknown"
          let maxV := ((fs.readFile (replaceS nm "_input" "_highest")).bind
            (fun s => parseU32 (trimS s))).getD 0
          let high := ((fs.readFile (replaceS nm "_input" "_max")).bind
            (fun s => parseU32 (trimS s))).getD 85000
          let crit := ((fs.readFile (replaceS nm "_input" "_crit")).bind
            (fun s => parseU32 (trimS s))).getD 100000
          scanEntries fs chipName rest (upsert acc name ⟨name, t, maxV, high, crit⟩)
    else scanEntries fs chipName rest acc

/-- Model of `HwmonSensor::read_temperatures` at instant `now`: when
`should_read` denies, return `Ok` immediately with the state untouched
and no file scan; otherwise scan the directory, and on success stamp
`last_update := now` and set `wait`.  The third component records
whether an actual file scan was performed. -/
def read_temperatures (st : HwmonState) (now : ℚ) (fs : HwmonFs) :
    Except LinuxError Unit × HwmonState × Bool :=
  if should_read st now fs then
    match scanEntries fs st.chipName fs.entries st.readings with
    | (.error e, acc) => (.error e, { st with readings := acc }, true)
    | (.ok acc, _) =>
      (.ok (), { st with readings := acc, last_update := now, wait := true }, true)
  else
    (.ok (), st, false)

/-! ### `Interface::refresh` (`src/lib.rs`) -/

/-- Model of the default `Interface::refresh`: call `refresh()` on each
owned thermal component in order; the `?` operator stops at the first
error, leaving the components after the failing one untouched.  The
result pairs the propagated outcome with the component list after the
pass (a component whose refresh errors is kept at its prior state, as is
everything after it). -/
def interfaceRefresh {α ε : Type} (f : α → Except ε α) :
    List α → Except ε Unit × List α
  | [] => (.ok (), [])
  | c :: cs =>
    match f c with
    | .error e => (.error e, c :: cs)
    | .ok c2 =>
      match interfaceRefresh f cs with
      | (r, cs2) => (r, c2 :: cs2)

/-! ## Helper lemmas -/

/-- Reassembling the two big-endian bytes of a 16-bit value restores
it. -/
theorem u16FromBE_padTo32_be16 (n : Nat) (_h : n < 65536) :
    u16FromBE (padTo32 (be16 n)) = n := by
  simp [u16FromBE, padTo32, be16, byte, List.getD, List.getElem?_cons_zero,
    List.getElem?_cons_succ, List.cons_append]
  omega

/-- The two's-complement 16-bit image is a valid byte pair. -/
theorem toUnsigned16_lt (v : Int) : toUnsigned16 v < 65536 := by
  unfold toUnsigned16
  omega

/-- Two's-complement 16-bit encoding round-trips on `[-32768, 32768)`. -/
theorem toSigned16_toUnsigned16 (v : Int) (h1 : -32768 ≤ v) (h2 : v < 32768) :
    toSigned16 (toUnsigned16 v) = v := by
  unfold toSigned16 toUnsigned16
  split <;> omega

/-- Two's-complement 8-bit encoding round-trips on `[-128, 128)`. -/
theorem toSigned8_toUnsigned8 (v : Int) (h1 : -128 ≤ v) (h2 : v < 128) :
    toSigned8 (toUnsigned8 v) = v := by
  unfold toSigned8 toUnsigned8
  split <;> omega

/-- Two's-complement 32-bit encoding round-trips. -/
theorem toSigned32_toUnsigned32 (v : Int) (h1 : -2147483648 ≤ v) (h2 : v < 2147483648) :
    toSigned32 (toUnsigned32 v) = v := by
  unfold toSigned32 toUnsigned32
  split <;> omega

/-- Reassembling the four big-endian bytes of a 32-bit value restores
it. -/
theorem u32FromBE_padTo32_be32 (n : Nat) (h : n < 4294967296) :
    u32FromBE (padTo32 (be32 n)) = n := by
  simp [u32FromBE, padTo32, be32, byte, List.getD, List.getElem?_cons_zero,
    List.getElem?_cons_succ, List.cons_append]
  omega

/-- Truncation toward zero moves by strictly less than one. -/
theorem ratTrunc_dist (q : ℚ) : |q - (ratTrunc q : ℚ)| < 1 := by
  unfold ratTrunc
  split
  · rw [abs_sub_lt_iff]
    constructor
    · linarith [Int.lt_floor_add_one q]
    · linarith [Int.floor_le q]
  · rw [abs_sub_lt_iff]
    constructor
    · linarith [Int.le_ceil q]
    · linarith [Int.ceil_lt_add_one q]

/-- The saturating `f64 as u16` cast agrees with the floor on
`[0, 65536)`. -/
theorem f64AsU16_eq_floor (q : ℚ) (h0 : 0 ≤ q) (h1 : q < 65536) :
    (f64AsU16 q : Int) = ⌊q⌋ := by
  unfold f64AsU16
  split
  · have : q = 0 := le_antisymm (by assumption) h0
    simp [this]
  · split
    · have : ⌊q⌋ = 65535 := by
        rw [Int.floor_eq_iff]
        constructor
        · push_cast
          linarith
        · push_cast
          linarith
      simp [this]
    · unfold ratTrunc
      rw [if_pos h0, Int.toNat_of_nonneg (Int.floor_nonneg.mpr h0)]

/-- The saturating `f64 as i16` cast agrees with truncation toward zero
on `[-32768, 32768)`. -/
theorem f64AsI16_eq_trunc (q : ℚ) (h0 : -32768 ≤ q) (h1 : q < 32768) :
    f64AsI16 q = ratTrunc q := by
  unfold f64AsI16
  split
  · have hq : q = -32768 := le_antisymm (by assumption) h0
    unfold ratTrunc
    rw [if_neg (by rw [hq]; norm_num)]
    rw [hq]
    decide
  · split
    · unfold ratTrunc
      rw [if_pos (by linarith)]
      have : ⌊q⌋ = 32767 := by
        rw [Int.floor_eq_iff]
        constructor
        · push_cast
          linarith
        · push_cast
          linarith
      rw [this]
    · rfl

/-- Truncation toward zero stays inside `[-32768, 32767]` when its input
lies in `[-32768, 32768)`. -/
theorem ratTrunc_range16 (q : ℚ) (h0 : -32768 ≤ q) (h1 : q < 32768) :
    -32768 ≤ ratTrunc q ∧ ratTrunc q < 32768 := by
  unfold ratTrunc
  split
  · constructor
    · have hnn : (0 : Int) ≤ ⌊q⌋ := Int.floor_nonneg.mpr (by assumption)
      omega
    · have : (⌊q⌋ : ℚ) < 32768 := lt_of_le_of_lt (Int.floor_le q) h1
      exact_mod_cast this
  · constructor
    · have : ((-32768 : Int) : ℚ) ≤ (⌈q⌉ : ℚ) := by
        push_cast
        linarith [Int.le_ceil q]
      exact_mod_cast this
    · have hq : q < 0 := lt_of_not_le (by assumption)
      have : ⌈q⌉ ≤ 0 := Int.ceil_le.mpr (by exact_mod_cast le_of_lt hq)
      omega

/-! ## Claim C7 — platform-mask derivation -/

/-- C7: platform-mask derivation from the processor-brand string:
`"Apple M1"` maps to `M1`, `"Apple M1 Pro"` to `M1_PRO`, `"Apple M1
Max"` to `M1_MAX`, `"Apple M1 Ultra"` to `M1_ULTRA`, `"Apple M2"` to
`M2`; any string not starting with `"Apple M"` (including an unreadable
brand string, which the code replaces by `"Unknown"`) maps to `INTEL`;
and any unrecognized suffix after the `"Apple M"` prefix also maps to
`INTEL`. -/
theorem claim_C7_platform_mask :
    read_platform "Apple M1" = M1 ∧
    read_platform "Apple M1 Pro" = M1_PRO ∧
    read_platform "Apple M1 Max" = M1_MAX ∧
    read_platform "Apple M1 Ultra" = M1_ULTRA ∧
    read_platform "Apple M2" = M2 ∧
    read_platform "Intel(R) Core(TM) i7-9750H CPU @ 2.60GHz" = INTEL ∧
    read_platform "Unknown" = INTEL ∧
    (∀ s : String, startsWithS s "Apple M" = false → read_platform s = INTEL) ∧
    (∀ s : String, startsWithS s "Apple M" = true →
      dropS s 7 ∉ (["1", "1 Pro", "1 Max", "1 Ultra", "2"] : List String) →
      read_platform s = INTEL) := by
  refine ⟨by decide, by decide, by decide, by decide, by decide, by decide, by decide, ?_, ?_⟩
  · intro s h
    simp [read_platform, h]
  · intro s h1 h2
    simp only [List.mem_cons, List.not_mem_nil, or_false, not_or] at h2
    obtain ⟨n1, n2, n3, n4, n5⟩ := h2
    simp [read_platform, h1, n1, n2, n3, n4, n5]

/-- C7 witness: the universally quantified fallback clauses evaluated at
concrete brand strings. -/
theorem claim_C7_platform_mask_witness :
    read_platform "AMD Ryzen 7" = INTEL ∧ read_platform "Apple M3" = INTEL :=
  ⟨claim_C7_platform_mask.2.2.2.2.2.2.2.1 "AMD Ryzen 7" (by decide),
   claim_C7_platform_mask.2.2.2.2.2.2.2.2 "Apple M3" (by decide) (by decide)⟩

/-! ## Claim C9 — `Interface::refresh` stops at the first error -/

/-- C9: the default `Interface::refresh` calls `refresh()` on the owned
thermal components in order; if every component succeeds it returns
`Ok` with all components refreshed, and at the first failing component
it propagates that component's error, leaving the failing component and
every component after it un-refreshed in that pass. -/
theorem claim_C9_refresh_first_error : ∀ {α ε : Type} (f : α → Except ε α),
    (∀ l : List α, (∀ c ∈ l, ∃ c2, f c = .ok c2) →
      interfaceRefresh f l = (.ok (), l.map fun c => ((f c).toOption.getD c))) ∧
    (∀ (l1 : List α) (c : α) (l2 : List α) (e : ε),
      (∀ a ∈ l1, ∃ a2, f a = .ok a2) → f c = .error e →
      interfaceRefresh f (l1 ++ c :: l2) =
        (.error e, (l1.map fun a => ((f a).toOption.getD a)) ++ c :: l2)) := by
  intro α ε f
  constructor
  · intro l
    induction l with
    | nil => intro _; rfl
    | cons c cs ih =>
      intro h
      obtain ⟨c2, hc⟩ := h c (List.mem_cons_self c cs)
      have hcs := ih (fun a ha => h a (List.mem_cons_of_mem c ha))
      simp [interfaceRefresh, hc, hcs, Except.toOption]
  · intro l1 c l2 e h hc
    induction l1 with
    | nil => simp [interfaceRefresh, hc]
    | cons a l1 ih =>
      obtain ⟨a2, ha⟩ := h a (List.mem_cons_self a l1)
      have := ih (fun b hb => h b (List.mem_cons_of_mem a hb))
      simp [interfaceRefresh, ha, this, Except.toOption]

/-- Concrete refresh function for the C9 witness: component `0` fails,
all others succeed by incrementing. -/
def c9f : Nat → Except String Nat := fun n => if n = 0 then .error "boom" else .ok (n + 1)

/-- C9 witness: with components `[1, 0, 5]`, the pass refreshes `1`,
stops at `0` with its error, and leaves `0` and `5` untouched. -/
theorem claim_C9_refresh_first_error_witness :
    interfaceRefresh c9f ([1] ++ 0 :: [5]) =
      (.error "boom", ([1].map fun a => ((c9f a).toOption.getD a)) ++ 0 :: [5]) :=
  (claim_C9_refresh_first_error c9f).2 [1] 0 [5] "boom"
    (by intro a ha; simp only [List.mem_singleton] at ha; subst ha; exact ⟨2, rfl⟩)
    rfl

/-! ## Claim C10 — `Smc::temperature` filtering -/

/-- C10: `Smc::temperature(key)` returns `Err(KeyNotFound(key))` — not a
type-mismatch error — whenever the key's string does not start with
`'T'`, or its queried type tag is neither `sp78` nor `flt ` (even if the
key exists, i.e. the info query succeeded); a `ReadKey` driver exchange
is attempted only when the key starts with `'T'` and its queried tag is
`sp78` or `flt `. -/
theorem claim_C10_temperature_filter : ∀ (o : SmcOracle) (key : String),
    (startsWithS key "T" = false →
      smc_temperature o key = (.err (SmcError.KeyNotFound key), false)) ∧
    (∀ info, startsWithS key "T" = true → o.keyInfo key = .ok info →
      info.id ≠ TYPE_SP78 → info.id ≠ TYPE_FLT →
      smc_temperature o key = (.err (SmcError.KeyNotFound key), false)) ∧
    ((smc_temperature o key).2 = true →
      startsWithS key "T" = true ∧
      ∃ info, o.keyInfo key = .ok info ∧ (info.id = TYPE_SP78 ∨ info.id = TYPE_FLT)) := by
  intro o key
  refine ⟨?_, ?_, ?_⟩
  · intro h
    simp [smc_temperature, h]
  · intro info h1 h2 h3 h4
    simp [smc_temperature, h1, h2, h3, h4]
  · intro h
    cases h1 : startsWithS key "T" with
    | false => rw [smc_temperature, if_neg (by simp [h1])] at h; simp at h
    | true =>
      refine ⟨rfl, ?_⟩
      cases h2 : o.keyInfo key with
      | error e => rw [smc_temperature, if_pos (by simp [h1])] at h; simp [h2] at h
      | ok info =>
        refine ⟨info, rfl, ?_⟩
        by_cases h3 : info.id = TYPE_SP78 ∨ info.id = TYPE_FLT
        · exact h3
        · rw [smc_temperature, if_pos (by simp [h1])] at h
          simp [h2, h3] at h

/-- Oracle for the C10 witness: every key exists with tag `ui16`. -/
def c10oracle : SmcOracle := ⟨fun _ => .ok ⟨TYPE_U16, 2⟩, fun _ => .ok (padTo32 [])⟩

/-- C10 witness: a key that exists (`TC0P`, tag `ui16`) but has a
non-temperature tag is rejected as `KeyNotFound` without a read. -/
theorem claim_C10_temperature_filter_witness :
    smc_temperature c10oracle "TC0P" = (.err (SmcError.KeyNotFound "TC0P"), false) :=
  (claim_C10_temperature_filter c10oracle "TC0P").2.1 ⟨TYPE_U16, 2⟩ (by decide) rfl
    (by decide) (by decide)

/-! ## Claim C3 — widening fallbacks on decode -/

/-- C3 counterexample: the claim states that *every* buffer tagged with
a narrower integer type of the same signedness class decodes by
widening; but decoding an `si16`-tagged buffer as `i32` does not widen —
it panics with a type-mismatch, so the signed half of the claim is
false. -/
theorem claim_C3_counterexample :
    i32_from_smc ⟨TYPE_I16, 2⟩ (padTo32 [0, 42]) =
      .panicked (msgConvertTo "i32") (some ⟨TYPE_I16, 2⟩) := rfl

/-- C3 (amended): the widening fallback exists only in the unsigned
decoders: `u16` decode accepts a `ui8 `-tagged buffer (yielding its
first byte) and `u32` decode accepts `ui8 ` and `ui16` tags (widening
the big-endian value); in particular a `ui8 ` buffer with byte `0x2A`
decoded as `u32` yields 42.  The signed decoders accept only their exact
tag — decoding `si8 ` as `i16`/`i32` or `si16` as `i32` fails — and any
other tag mismatch also fails (with a panic carrying the offending
tag). -/
theorem claim_C3_unsigned_widening :
    (∀ (sz : Nat) (b : SmcBytes), u16_from_smc ⟨TYPE_U8, sz⟩ b = .ok (byte b 0)) ∧
    (∀ (sz : Nat) (b : SmcBytes), u32_from_smc ⟨TYPE_U8, sz⟩ b = .ok (byte b 0)) ∧
    (∀ (sz : Nat) (b : SmcBytes), u32_from_smc ⟨TYPE_U16, sz⟩ b = .ok (u16FromBE b)) ∧
    u32_from_smc ⟨TYPE_U8, 1⟩ (padTo32 [0x2A]) = .ok 42 ∧
    u32_from_smc ⟨TYPE_U16, 2⟩ (padTo32 [0x01, 0x02]) = .ok 258 ∧
    (∀ (sz : Nat) (b : SmcBytes),
      i16_from_smc ⟨TYPE_I8, sz⟩ b = .panicked (msgConvertTo "i16") (some ⟨TYPE_I8, sz⟩)) ∧
    (∀ (sz : Nat) (b : SmcBytes),
      i32_from_smc ⟨TYPE_I8, sz⟩ b = .panicked (msgConvertTo "i32") (some ⟨TYPE_I8, sz⟩)) ∧
    (∀ (sz : Nat) (b : SmcBytes),
      i32_from_smc ⟨TYPE_I16, sz⟩ b = .panicked (msgConvertTo "i32") (some ⟨TYPE_I16, sz⟩)) ∧
    (∀ (sz : Nat) (b : SmcBytes),
      u32_from_smc ⟨TYPE_I16, sz⟩ b = .panicked (msgConvertTo "u32") (some ⟨TYPE_I16, sz⟩)) :=
  ⟨fun _ _ => rfl, fun _ _ => rfl, fun _ _ => rfl, rfl, rfl,
   fun _ _ => rfl, fun _ _ => rfl, fun _ _ => rfl, fun _ _ => rfl⟩

/-! ## Claim C1 — codec failures are panics, not error values -/

/-- C1 counterexample: the claim states the codec returns a
deterministic type-mismatch *error value* and never panics or aborts;
but on a mismatched tag the codec's only failure channel is `panic!`
(the `SmcType` trait returns bare `Self`/`SmcBytes`, with no error
type): decoding a `flag`-tagged buffer as `u32` panics, and encoding a
fan descriptor panics rather than returning a "write not supported"
error value. -/
theorem claim_C1_counterexample :
    u32_from_smc ⟨TYPE_FLAG, 1⟩ (padTo32 []) =
      .panicked (msgConvertTo "u32") (some ⟨TYPE_FLAG, 1⟩) ∧
    rawfan_to_smc ⟨TYPE_FAN, 16⟩ = .panicked "You can't write a RawFan type" none :=
  ⟨rfl, rfl⟩

/-- C1 (amended): for every supported logical type, when `from_smc` or
`to_smc` is given a tag that does not match, the codec fails
deterministically by *panicking* (aborting, not returning an error
value), with a panic message that carries the offending tag; encoding a
fan descriptor unconditionally panics with the dedicated message
`"You can't write a RawFan type"` (which carries no tag). -/
theorem claim_C1_mismatch_panics :
    (∀ (dt : DataType) (b : SmcBytes), dt.id ≠ TYPE_FLAG → dt.id ≠ TYPE_U8 →
      bool_from_smc dt b = .panicked (msgConvertTo "bool") (some dt)) ∧
    (∀ (dt : DataType) (x : Bool), dt.id ≠ TYPE_FLAG → dt.id ≠ TYPE_U8 →
      bool_to_smc x dt = .panicked (msgConvertFrom "bool") (some dt)) ∧
    (∀ (dt : DataType) (b : SmcBytes), dt.id ≠ TYPE_U8 →
      u8_from_smc dt b = .panicked (msgConvertTo "u8") (some dt)) ∧
    (∀ (dt : DataType) (x : Nat), dt.id ≠ TYPE_U8 →
      u8_to_smc x dt = .panicked (msgConvertFrom "u8") (some dt)) ∧
    (∀ (dt : DataType) (b : SmcBytes), dt.id ≠ TYPE_I8 →
      i8_from_smc dt b = .panicked (msgConvertTo "i8") (some dt)) ∧
    (∀ (dt : DataType) (x : Int), dt.id ≠ TYPE_I8 →
      i8_to_smc x dt = .panicked (msgConvertFrom "i8") (some dt)) ∧
    (∀ (dt : DataType) (b : SmcBytes), dt.id ≠ TYPE_U8 → dt.id ≠ TYPE_U16 →
      u16_from_smc dt b = .panicked (msgConvertTo "u16") (some dt)) ∧
    (∀ (dt : DataType) (x : Nat), dt.id ≠ TYPE_U16 →
      u16_to_smc x dt = .panicked (msgConvertFrom "u16") (some dt)) ∧
    (∀ (dt : DataType) (b : SmcBytes), dt.id ≠ TYPE_I16 →
      i16_from_smc dt b = .panicked (msgConvertTo "i16") (some dt)) ∧
    (∀ (dt : DataType) (x : Int), dt.id ≠ TYPE_I16 →
      i16_to_smc x dt = .panicked (msgConvertFrom "i16") (some dt)) ∧
    (∀ (dt : DataType) (b : SmcBytes),
      dt.id ≠ TYPE_U8 → dt.id ≠ TYPE_U16 → dt.id ≠ TYPE_U32 →
      u32_from_smc dt b = .panicked (msgConvertTo "u32") (some dt)) ∧
    (∀ (dt : DataType) (x : Nat), dt.id ≠ TYPE_U32 →
      u32_to_smc x dt = .panicked (msgConvertFrom "u32") (some dt)) ∧
    (∀ (dt : DataType) (b : SmcBytes), dt.id ≠ TYPE_I32 →
      i32_from_smc dt b = .panicked (msgConvertTo "i32") (some dt)) ∧
    (∀ (dt : DataType) (x : Int), dt.id ≠ TYPE_I32 →
      i32_to_smc x dt = .panicked (msgConvertFrom "i32") (some dt)) ∧
    (∀ (dt : DataType) (b : SmcBytes),
      dt.id ≠ TYPE_FPE2 → dt.id ≠ TYPE_SP78 → dt.id ≠ TYPE_FLT →
      f64_from_smc dt b = .panicked (msgConvertTo "f64") (some dt)) ∧
    (∀ (dt : DataType) (x : ℚ),
      dt.id ≠ TYPE_FPE2 → dt.id ≠ TYPE_SP78 → dt.id ≠ TYPE_FLT →
      f64_to_smc x dt = .panicked (msgConvertFrom "f64") (some dt)) ∧
    (∀ dt : DataType, rawfan_to_smc dt = .panicked "You can't write a RawFan type" none) ∧
    (∀ (dt : DataType) (b : SmcBytes), dt.id ≠ TYPE_FAN →
      rawfan_from_smc dt b = .panicked (msgConvertTo "RawFan") (some dt)) := by
  refine ⟨?_, ?_, ?_, ?_, ?_, ?_, ?_, ?_, ?_, ?_, ?_, ?_, ?_, ?_, ?_, ?_, ?_, ?_⟩
  · intro dt b h1 h2; simp [bool_from_smc, h1, h2]
  · intro dt x h1 h2; simp [bool_to_smc, h1, h2]
  · intro dt b h1; simp [u8_from_smc, h1]
  · intro dt x h1; simp [u8_to_smc, h1]
  · intro dt b h1; simp [i8_from_smc, h1]
  · intro dt x h1; simp [i8_to_smc, h1]
  · intro dt b h1 h2; simp [u16_from_smc, h1, h2]
  · intro dt x h1; simp [u16_to_smc, h1]
  · intro dt b h1; simp [i16_from_smc, h1]
  · intro dt x h1; simp [i16_to_smc, h1]
  · intro dt b h1 h2 h3; simp [u32_from_smc, h1, h2, h3]
  · intro dt x h1; simp [u32_to_smc, h1]
  · intro dt b h1; simp [i32_from_smc, h1]
  · intro dt x h1; simp [i32_to_smc, h1]
  · intro dt b h1 h2 h3; simp [f64_from_smc, float_from_smc, h1, h2, h3]
  · intro dt x h1 h2 h3; simp [f64_to_smc, float_to_smc, h1, h2, h3]
  · intro dt; rfl
  · intro dt b h1; simp [rawfan_from_smc, h1]

/-- C1 witness: the bool decoder applied to a concrete mismatched tag
panics with the tag-carrying message. -/
theorem claim_C1_mismatch_panics_witness :
    bool_from_smc ⟨TYPE_U32, 4⟩ (padTo32 []) =
      .panicked (msgConvertTo "bool") (some ⟨TYPE_U32, 4⟩) :=
  claim_C1_mismatch_panics.1 ⟨TYPE_U32, 4⟩ (padTo32 []) (by decide) (by decide)

/-! ## Float-codec equation lemmas -/

/-- The two's-complement 32-bit image is four valid bytes. -/
theorem toUnsigned32_lt (v : Int) : toUnsigned32 v < 4294967296 := by
  unfold toUnsigned32
  omega

/-- The `fpe2` encoder on a non-negative input stores the saturating
truncation of `x * 4` big-endian. -/
theorem fpe2_encode_nonneg (x : ℚ) (h0 : 0 ≤ x) :
    f64_to_smc x ⟨TYPE_FPE2, 2⟩ = .ok (padTo32 (be16 (f64AsU16 (x * 4)))) := by
  unfold f64_to_smc float_to_smc
  rw [if_pos (show (⟨TYPE_FPE2, 2⟩ : DataType).id = TYPE_FPE2 from rfl),
    if_neg (not_lt.mpr h0)]

/-- The `fpe2` encoder panics on every negative input. -/
theorem fpe2_encode_neg (x : ℚ) (h : x < 0) :
    f64_to_smc x ⟨TYPE_FPE2, 2⟩ =
      .panicked ("Cannot convert negative f64 to fpe2") none := by
  unfold f64_to_smc float_to_smc
  rw [if_pos (show (⟨TYPE_FPE2, 2⟩ : DataType).id = TYPE_FPE2 from rfl), if_pos h]
  rfl

/-- The `sp78` encoder stores the two's-complement image of the
saturating truncation of `x * 256` big-endian. -/
theorem sp78_encode_eq (x : ℚ) :
    f64_to_smc x ⟨TYPE_SP78, 2⟩ =
      .ok (padTo32 (be16 (toUnsigned16 (f64AsI16 (x * 256))))) := by
  unfold f64_to_smc float_to_smc
  rw [if_neg (by decide), if_pos (show (⟨TYPE_SP78, 2⟩ : DataType).id = TYPE_SP78 from rfl)]

/-! ## Claim C5 — fixed-point decode/encode formulas -/

/-- C5: `fpe2` decode divides the big-endian 16-bit value of the first
two bytes by 4 and `sp78` (signed) by 256; `sp78` bytes `0x19 0x00`
decode to exactly 25.0 and `fpe2` bytes `0x00 0x64` to exactly 25.0;
encode multiplies by 4 / 256 and truncates toward zero (it does not
round) when casting to the integer intermediate, as the concrete
non-rounding instances show (`25.7 * 4 = 102.8` is stored as `102`, and
`-100.5` is stored as `-100`, not `-101`). -/
theorem claim_C5_fixed_point :
    (∀ b : SmcBytes, f64_from_smc ⟨TYPE_FPE2, 2⟩ b = .ok ((u16FromBE b : ℚ) / 4)) ∧
    (∀ b : SmcBytes,
      f64_from_smc ⟨TYPE_SP78, 2⟩ b = .ok ((toSigned16 (u16FromBE b) : ℚ) / 256)) ∧
    f64_from_smc ⟨TYPE_SP78, 2⟩ (padTo32 [0x19, 0x00]) = .ok 25 ∧
    f64_from_smc ⟨TYPE_FPE2, 2⟩ (padTo32 [0x00, 0x64]) = .ok 25 ∧
    (∀ x : ℚ, 0 ≤ x → x * 4 < 65536 →
      f64_to_smc x ⟨TYPE_FPE2, 2⟩ = .ok (padTo32 (be16 (Int.toNat ⌊x * 4⌋)))) ∧
    f64_to_smc (257 / 10) ⟨TYPE_FPE2, 2⟩ = .ok (padTo32 (be16 102)) ∧
    (∀ x : ℚ, -32768 ≤ x * 256 → x * 256 < 32768 →
      f64_to_smc x ⟨TYPE_SP78, 2⟩ =
        .ok (padTo32 (be16 (toUnsigned16 (ratTrunc (x * 256)))))) ∧
    f64_to_smc (-201 / 512) ⟨TYPE_SP78, 2⟩ = .ok (padTo32 (be16 65436)) := by
  refine ⟨fun b => rfl, fun b => rfl, ?_, ?_, ?_, ?_, ?_, ?_⟩
  · have h : toSigned16 (u16FromBE (padTo32 [0x19, 0x00])) = 6400 := by decide
    show ConvResult.ok ((toSigned16 (u16FromBE (padTo32 [0x19, 0x00])) : ℚ) / 256) = .ok 25
    rw [h]
    norm_num
  · have h : u16FromBE (padTo32 [0x00, 0x64]) = 100 := by decide
    show ConvResult.ok ((u16FromBE (padTo32 [0x00, 0x64]) : ℚ) / 4) = .ok 25
    rw [h]
    norm_num
  · intro x h0 h1
    have hv : (f64AsU16 (x * 4) : Int) = ⌊x * 4⌋ :=
      f64AsU16_eq_floor (x * 4) (by linarith) h1
    have h2 : f64AsU16 (x * 4) = Int.toNat ⌊x * 4⌋ := by omega
    rw [fpe2_encode_nonneg x h0, h2]
  · rw [fpe2_encode_nonneg (257 / 10) (by norm_num)]
    have hfl : (⌊(257 / 10 : ℚ) * 4⌋ : Int) = 102 := by
      rw [Int.floor_eq_iff]
      constructor <;> norm_num
    have hv : (f64AsU16 ((257 / 10 : ℚ) * 4) : Int) = ⌊(257 / 10 : ℚ) * 4⌋ :=
      f64AsU16_eq_floor _ (by norm_num) (by norm_num)
    have : f64AsU16 ((257 / 10 : ℚ) * 4) = 102 := by omega
    rw [this]
  · intro x h0 h1
    rw [sp78_encode_eq x, f64AsI16_eq_trunc (x * 256) h0 h1]
  · rw [sp78_encode_eq]
    have h1 : f64AsI16 ((-201 / 512 : ℚ) * 256) = ratTrunc ((-201 / 512 : ℚ) * 256) :=
      f64AsI16_eq_trunc _ (by norm_num) (by norm_num)
    have h2 : ratTrunc ((-201 / 512 : ℚ) * 256) = -100 := by
      unfold ratTrunc
      rw [if_neg (by norm_num)]
      rw [Int.ceil_eq_iff]
      constructor <;> norm_num
    rw [h1, h2]
    rfl

/-- C5 witness: the encode-truncation clause evaluated at `x = 1/2`. -/
theorem claim_C5_fixed_point_witness :
    f64_to_smc (1 / 2) ⟨TYPE_FPE2, 2⟩ = .ok (padTo32 (be16 (Int.toNat ⌊(1 / 2 : ℚ) * 4⌋))) :=
  claim_C5_fixed_point.2.2.2.2.1 (1 / 2) (by norm_num) (by norm_num)

/-! ## Claim C4 — round-trip within tag precision -/

/-- C4: for every supported tag and value encodable under it,
`decode(encode(x, tag), tag) = x` within the tag's precision: exactly
for `bool` (both accepted tags) and the fixed-width integer tags; with
loss at most 1/4 for `fpe2` (whose encoder panics on every negative
input) and at most 1/256 for `sp78`. -/
theorem claim_C4_roundtrip :
    (∀ (x : Bool) (dt : DataType), dt.id = TYPE_FLAG ∨ dt.id = TYPE_U8 →
      ∃ b, bool_to_smc x dt = .ok b ∧ bool_from_smc dt b = .ok x) ∧
    (∀ x : Nat, x < 256 →
      ∃ b, u8_to_smc x ⟨TYPE_U8, 1⟩ = .ok b ∧ u8_from_smc ⟨TYPE_U8, 1⟩ b = .ok x) ∧
    (∀ x : Int, -128 ≤ x → x < 128 →
      ∃ b, i8_to_smc x ⟨TYPE_I8, 1⟩ = .ok b ∧ i8_from_smc ⟨TYPE_I8, 1⟩ b = .ok x) ∧
    (∀ x : Nat, x < 65536 →
      ∃ b, u16_to_smc x ⟨TYPE_U16, 2⟩ = .ok b ∧ u16_from_smc ⟨TYPE_U16, 2⟩ b = .ok x) ∧
    (∀ x : Int, -32768 ≤ x → x < 32768 →
      ∃ b, i16_to_smc x ⟨TYPE_I16, 2⟩ = .ok b ∧ i16_from_smc ⟨TYPE_I16, 2⟩ b = .ok x) ∧
    (∀ x : Nat, x < 4294967296 →
      ∃ b, u32_to_smc x ⟨TYPE_U32, 4⟩ = .ok b ∧ u32_from_smc ⟨TYPE_U32, 4⟩ b = .ok x) ∧
    (∀ x : Int, -2147483648 ≤ x → x < 2147483648 →
      ∃ b, i32_to_smc x ⟨TYPE_I32, 4⟩ = .ok b ∧ i32_from_smc ⟨TYPE_I32, 4⟩ b = .ok x) ∧
    (∀ x : ℚ, 0 ≤ x → x < 16384 →
      ∃ b v, f64_to_smc x ⟨TYPE_FPE2, 2⟩ = .ok b ∧
        f64_from_smc ⟨TYPE_FPE2, 2⟩ b = .ok v ∧ |x - v| ≤ 1 / 4) ∧
    (∀ x : ℚ, x < 0 → (f64_to_smc x ⟨TYPE_FPE2, 2⟩).isPanic = true) ∧
    (∀ x : ℚ, -128 ≤ x → x < 128 →
      ∃ b v, f64_to_smc x ⟨TYPE_SP78, 2⟩ = .ok b ∧
        f64_from_smc ⟨TYPE_SP78, 2⟩ b = .ok v ∧ |x - v| ≤ 1 / 256) := by
  refine ⟨?_, ?_, ?_, ?_, ?_, ?_, ?_, ?_, ?_, ?_⟩
  · intro x dt h
    refine ⟨padTo32 [if x then 1 else 0], ?_, ?_⟩
    · unfold bool_to_smc
      rw [if_pos h]
    · unfold bool_from_smc
      rw [if_pos h]
      cases x <;> rfl
  · intro x _
    exact ⟨_, rfl, rfl⟩
  · intro x h1 h2
    refine ⟨_, rfl, ?_⟩
    show ConvResult.ok (toSigned8 (byte (padTo32 [toUnsigned8 x]) 0)) = .ok x
    have hb : byte (padTo32 [toUnsigned8 x]) 0 = toUnsigned8 x := rfl
    rw [hb, toSigned8_toUnsigned8 x h1 h2]
  · intro x h
    refine ⟨_, rfl, ?_⟩
    show ConvResult.ok (u16FromBE (padTo32 (be16 x))) = .ok x
    rw [u16FromBE_padTo32_be16 x h]
  · intro x h1 h2
    refine ⟨_, rfl, ?_⟩
    show ConvResult.ok (toSigned16 (u16FromBE (padTo32 (be16 (toUnsigned16 x))))) = .ok x
    rw [u16FromBE_padTo32_be16 _ (toUnsigned16_lt x), toSigned16_toUnsigned16 x h1 h2]
  · intro x h
    refine ⟨_, rfl, ?_⟩
    show ConvResult.ok (u32FromBE (padTo32 (be32 x))) = .ok x
    rw [u32FromBE_padTo32_be32 x h]
  · intro x h1 h2
    refine ⟨_, rfl, ?_⟩
    show ConvResult.ok (toSigned32 (u32FromBE (padTo32 (be32 (toUnsigned32 x))))) = .ok x
    rw [u32FromBE_padTo32_be32 _ (toUnsigned32_lt x), toSigned32_toUnsigned32 x h1 h2]
  · intro x h0 h1
    have h4 : (0 : ℚ) ≤ x * 4 := by linarith
    have h5 : x * 4 < 65536 := by linarith
    have hv : (f64AsU16 (x * 4) : Int) = ⌊x * 4⌋ := f64AsU16_eq_floor (x * 4) h4 h5
    have hlt : f64AsU16 (x * 4) < 65536 := by
      have : ⌊x * 4⌋ < 65536 := Int.floor_lt.mpr (by exact_mod_cast h5)
      omega
    refine ⟨padTo32 (be16 (f64AsU16 (x * 4))), (f64AsU16 (x * 4) : ℚ) / 4,
      fpe2_encode_nonneg x h0, ?_, ?_⟩
    · show ConvResult.ok ((u16FromBE (padTo32 (be16 (f64AsU16 (x * 4)))) : ℚ) / 4) = _
      rw [u16FromBE_padTo32_be16 _ hlt]
    · have hc : (f64AsU16 (x * 4) : ℚ) = ((⌊x * 4⌋ : Int) : ℚ) := by exact_mod_cast hv
      have hfl : ((⌊x * 4⌋ : Int) : ℚ) ≤ x * 4 := Int.floor_le (x * 4)
      have hfu : x * 4 < ((⌊x * 4⌋ : Int) : ℚ) + 1 := Int.lt_floor_add_one (x * 4)
      rw [hc, abs_le]
      constructor <;> [linarith; linarith]
  · intro x h
    rw [fpe2_encode_neg x h]
    rfl
  · intro x h0 h1
    have h4 : (-32768 : ℚ) ≤ x * 256 := by linarith
    have h5 : x * 256 < 32768 := by linarith
    have hv : f64AsI16 (x * 256) = ratTrunc (x * 256) := f64AsI16_eq_trunc (x * 256) h4 h5
    have hr := ratTrunc_range16 (x * 256) h4 h5
    refine ⟨padTo32 (be16 (toUnsigned16 (f64AsI16 (x * 256)))),
      (toSigned16 (toUnsigned16 (f64AsI16 (x * 256))) : ℚ) / 256, sp78_encode_eq x, ?_, ?_⟩
    · show ConvResult.ok
        ((toSigned16 (u16FromBE (padTo32 (be16 (toUnsigned16 (f64AsI16 (x * 256)))))) : ℚ)
          / 256) = _
      rw [u16FromBE_padTo32_be16 _ (toUnsigned16_lt _)]
    · rw [hv, toSigned16_toUnsigned16 (ratTrunc (x * 256)) (by omega) (by omega)]
      have hd := ratTrunc_dist (x * 256)
      have habs : |x * 256 - (ratTrunc (x * 256) : ℚ)| ≤ 1 := le_of_lt hd
      have hrw : x - (ratTrunc (x * 256) : ℚ) / 256 =
          (x * 256 - (ratTrunc (x * 256) : ℚ)) / 256 := by ring
      rw [hrw, abs_div, abs_of_pos (by norm_num : (0 : ℚ) < 256)]
      linarith [abs_nonneg (x * 256 - (ratTrunc (x * 256) : ℚ))]

/-- C4 witness: the `fpe2` round-trip clause evaluated at `x = 25.3`. -/
theorem claim_C4_roundtrip_witness :
    ∃ b v, f64_to_smc (253 / 10) ⟨TYPE_FPE2, 2⟩ = .ok b ∧
      f64_from_smc ⟨TYPE_FPE2, 2⟩ b = .ok v ∧ |(253 / 10 : ℚ) - v| ≤ 1 / 4 :=
  claim_C4_roundtrip.2.2.2.2.2.2.2.1 (253 / 10) (by norm_num) (by norm_num)

/-! ## Claim C2 — the `UnsafeFanSpeed` guard -/

/-- A driver-call error embeds to anything but `UnsafeFanSpeed`. -/
theorem CallErr.toSmc_ne_unsafe (ce : CallErr) : ce.toSmc ≠ SmcError.UnsafeFanSpeed := by
  cases ce <;> simp [CallErr.toSmc]

/-- `write_key` (f64 payload) never produces `UnsafeFanSpeed`. -/
theorem write_key_f64_no_unsafe (o : FanOracle) (key : String) (x : ℚ) :
    (write_key_f64 o key x).1 ≠ .err SmcError.UnsafeFanSpeed := by
  unfold write_key_f64
  rcases h1 : o.keyInfo key with ce | info
  · simp [CallErr.toSmc_ne_unsafe ce]
  · rcases h2 : f64_to_smc x info with b | ⟨m, t⟩
    · rcases h3 : o.writeRes key with ce | u
      · simp [h2, h3, CallErr.toSmc_ne_unsafe ce]
      · simp [h2, h3]
    · simp [h2]

/-- `write_key` (u16 payload) never produces `UnsafeFanSpeed`. -/
theorem write_key_u16_no_unsafe (o : FanOracle) (key : String) (x : Nat) :
    (write_key_u16 o key x).1 ≠ .err SmcError.UnsafeFanSpeed := by
  unfold write_key_u16
  rcases h1 : o.keyInfo key with ce | info
  · simp [CallErr.toSmc_ne_unsafe ce]
  · rcases h2 : u16_to_smc x info with b | ⟨m, t⟩
    · rcases h3 : o.writeRes key with ce | u
      · simp [h2, h3, CallErr.toSmc_ne_unsafe ce]
      · simp [h2, h3]
    · simp [h2]

/-- `write_key` (mode payload) never produces `UnsafeFanSpeed`. -/
theorem write_key_mode_no_unsafe (o : FanOracle) (key : String) (mode : FanMode) :
    (write_key_mode o key mode).1 ≠ .err SmcError.UnsafeFanSpeed := by
  unfold write_key_mode
  rcases h1 : o.keyInfo key with ce | info
  · simp [CallErr.toSmc_ne_unsafe ce]
  · rcases h2 : bool_to_smc (mode = FanMode.Forced) info with b | ⟨m, t⟩
    · rcases h3 : o.writeRes key with ce | u
      · simp [h2, h3, CallErr.toSmc_ne_unsafe ce]
      · simp [h2, h3]
    · simp [h2]

/-- `read_key::<u16>` never produces `UnsafeFanSpeed`. -/
theorem read_key_u16_no_unsafe (o : FanOracle) (key : String) :
    (read_key_u16 o key).1 ≠ .err SmcError.UnsafeFanSpeed := by
  unfold read_key_u16
  rcases h1 : o.keyInfo key with ce | info
  · simp [CallErr.toSmc_ne_unsafe ce]
  · rcases h2 : o.readBytes key with ce | bytes
    · simp [h2, CallErr.toSmc_ne_unsafe ce]
    · rcases h3 : u16_from_smc info bytes with v | ⟨m, t⟩
      · simp [h2, h3]
      · simp [h2, h3]

/-- `write_managed` never produces `UnsafeFanSpeed`. -/
theorem write_managed_no_unsafe (o : FanOracle) (id : Nat) (what : Bool) :
    (write_managed o id what).1 ≠ .err SmcError.UnsafeFanSpeed := by
  unfold write_managed
  rcases h1 : read_key_u16 o "FS! " with ⟨r, tr⟩
  cases r with
  | ok bitmask =>
    simp only
    split
    · split
      · simp
      · simpa using write_key_u16_no_unsafe o "FS! " _
    · split
      · simp
      · simpa using write_key_u16_no_unsafe o "FS! " _
  | err e =>
    have hr := read_key_u16_no_unsafe o "FS! "
    rw [h1] at hr
    simpa using hr
  | panicked m => simp

/-- `set_mode` never produces `UnsafeFanSpeed`. -/
theorem set_mode_no_unsafe (o : FanOracle) (fan : Fan) (mode : FanMode) :
    (set_mode o fan mode).1 ≠ .err SmcError.UnsafeFanSpeed := by
  unfold set_mode
  rcases h1 : write_key_mode o (fanKey fan.id "Md") mode with ⟨r, tr⟩
  cases r with
  | ok u => simp
  | panicked m => simp
  | err e =>
    simp only
    rcases h2 : write_managed o fan.id (mode = FanMode.Auto) with ⟨r2, tr2⟩
    have hm := write_managed_no_unsafe o fan.id (mode = FanMode.Auto)
    rw [h2] at hm
    cases r2 with
    | ok u => simp
    | err e2 => simpa using hm
    | panicked m => simp

/-- C2: `Fan::set_current_speed(rpm)` fails with `UnsafeFanSpeed`
exactly when `rpm <= min_speed || rpm > max_speed` (exclusive low
boundary, inclusive high boundary), and on rejection not a single driver
exchange is issued — the trace is empty, so neither the mode key nor the
target key is written and no state is partially applied. -/
theorem claim_C2_fan_speed_guard : ∀ (o : FanOracle) (fan : Fan) (speed : ℚ),
    ((speed ≤ fan.min_speed ∨ speed > fan.max_speed) →
      set_current_speed o fan speed = (.err SmcError.UnsafeFanSpeed, [])) ∧
    (¬(speed ≤ fan.min_speed ∨ speed > fan.max_speed) →
      (set_current_speed o fan speed).1 ≠ .err SmcError.UnsafeFanSpeed) := by
  intro o fan speed
  constructor
  · intro h
    unfold set_current_speed
    rw [if_pos h]
  · intro h
    unfold set_current_speed
    rw [if_neg h]
    rcases h1 : set_mode o fan FanMode.Forced with ⟨r, tr⟩
    have hm := set_mode_no_unsafe o fan FanMode.Forced
    rw [h1] at hm
    cases r with
    | ok fan2 =>
      simp only
      rcases h2 : write_key_f64 o (fanKey fan.id "Tg") speed with ⟨r2, tr2⟩
      have hw := write_key_f64_no_unsafe o (fanKey fan.id "Tg") speed
      rw [h2] at hw
      cases r2 with
      | ok u => simp
      | err e => simpa using hw
      | panicked m => simp
    | err e => simpa using hm
    | panicked m => simp

/-- Driver oracle for the C2 witness: every key reports tag `fpe2` and
accepts reads and writes. -/
def c2oracle : FanOracle :=
  ⟨fun _ => .ok ⟨TYPE_FPE2, 2⟩, fun _ => .ok (padTo32 []), fun _ => .ok ()⟩

/-- Fan for the C2 witness: `min_speed = 2500`, `max_speed = 4000`. -/
def c2fan : Fan := ⟨0, "Left Fan", .Auto, 2500, 4000⟩

/-- C2 witness: `rpm = min_speed` is rejected with `UnsafeFanSpeed` and
an empty trace (exclusive low boundary), while `rpm = max_speed` passes
the guard (inclusive high boundary) and cannot fail with
`UnsafeFanSpeed`. -/
theorem claim_C2_fan_speed_guard_witness :
    set_current_speed c2oracle c2fan 2500 = (.err SmcError.UnsafeFanSpeed, []) ∧
    (set_current_speed c2oracle c2fan 4000).1 ≠ .err SmcError.UnsafeFanSpeed :=
  ⟨(claim_C2_fan_speed_guard c2oracle c2fan 2500).1 (by norm_num [c2fan]),
   (claim_C2_fan_speed_guard c2oracle c2fan 4000).2 (by norm_num [c2fan])⟩

/-! ## Claim C6 — discovery swallows per-entry failures -/

/-- A surviving pair produced by `appleSelect` carries the very sensor
it was built from. -/
theorem appleSelect_fst (o : AppleOracle) (keys : List String) (p : Nat) (s : Sensor)
    (pr : Sensor × AppleComponentSt) (h : appleSelect o keys p s = some pr) :
    pr.1 = s := by
  unfold appleSelect at h
  split at h
  · split at h
    · split at h
      · injection h with h2
        rw [← h2]
      · cases h
    · split at h
      · injection h with h2
        rw [← h2]
      · cases h
    · cases h
  · cases h

/-- Every per-entry failure condition makes `appleSelect` drop the
entry. -/
theorem appleSelect_none_of_bad (o : AppleOracle) (keys : List String) (p : Nat)
    (s : Sensor)
    (h : keys.contains s.key = false ∨ platformContains s.platforms p = false ∨
      (s.component_type ≠ .Cpu ∧ s.component_type ≠ .Gpu) ∨
      (∃ e, o.temp s.key = .error e)) :
    appleSelect o keys p s = none := by
  unfold appleSelect
  rcases h with h | h | ⟨h1, h2⟩ | ⟨e, he⟩
  · rw [if_neg (fun hc => by rw [hc.1] at h; exact Bool.noConfusion h)]
  · rw [if_neg (fun hc => by rw [hc.2] at h; exact Bool.noConfusion h)]
  · by_cases hc : keys.contains s.key ∧ platformContains s.platforms p
    · rw [if_pos hc]
      rcases h3 : s.component_type <;> simp_all
    · rw [if_neg hc]
  · by_cases hc : keys.contains s.key ∧ platformContains s.platforms p
    · rw [if_pos hc]
      rcases h3 : s.component_type <;> simp_all [appleRefresh]
    · rw [if_neg hc]

/-- An entry passing every filter with a successful initial read
survives as the refreshed component. -/
theorem appleSelect_some_of_good (o : AppleOracle) (keys : List String) (p : Nat)
    (s : Sensor) (v : ℚ)
    (h1 : keys.contains s.key = true) (h2 : platformContains s.platforms p = true)
    (h3 : s.component_type = .Cpu ∨ s.component_type = .Gpu)
    (h4 : o.temp s.key = .ok v) :
    appleSelect o keys p s = some (s, ⟨s, v, max 0 v⟩) := by
  unfold appleSelect
  rw [if_pos ⟨h1, h2⟩]
  rcases h3 with h3 | h3 <;> rw [h3] <;> simp [appleRefresh, h4]

/-- C6 counterexample: the claim states discovery returns an error only
when the SMC session cannot be opened at all; but `AppleComponents::new`
also propagates a failure of the initial key enumeration (`smc.keys()?`)
— here the session opens fine (`newRes = Ok`) yet discovery fails with
the enumeration's `NotPrivileged` error. -/
theorem claim_C6_counterexample :
    (AppleOracle.mk (.ok ()) (.error SmcError.NotPrivileged) (fun _ => .ok 0)).newRes
        = .ok () ∧
    appleNew (AppleOracle.mk (.ok ()) (.error SmcError.NotPrivileged) (fun _ => .ok 0))
        "Apple M1" [] = .error SmcError.NotPrivileged :=
  ⟨rfl, rfl⟩

/-- C6 (amended): Apple discovery swallows every per-catalog-entry
failure — an entry whose key is absent from the live key set, whose
platform mask does not contain the host mask, whose component type is
not Cpu/Gpu, or whose initial refresh fails is excluded from the
resulting component list without failing discovery — and discovery as a
whole returns an error only when the SMC session cannot be opened or
the initial key enumeration fails; entries passing every filter are
included with their initial reading. -/
theorem claim_C6_discovery_swallows :
    ∀ (o : AppleOracle) (cpuName : String) (catalog : List Sensor),
    (∀ e, appleNew o cpuName catalog = .error e →
      o.newRes = .error e ∨ o.keysRes = .error e) ∧
    (∀ (u : Unit) (keys : List String), o.newRes = .ok u → o.keysRes = .ok keys →
      ∃ l, appleNew o cpuName catalog = .ok l ∧
        (∀ s ∈ catalog,
          (keys.contains s.key = false ∨
            platformContains s.platforms (read_platform cpuName) = false ∨
            (s.component_type ≠ .Cpu ∧ s.component_type ≠ .Gpu) ∨
            (∃ e, o.temp s.key = .error e)) →
          ∀ pr ∈ l, pr.1 ≠ s) ∧
        (∀ s ∈ catalog, ∀ v : ℚ, keys.contains s.key = true →
          platformContains s.platforms (read_platform cpuName) = true →
          (s.component_type = .Cpu ∨ s.component_type = .Gpu) →
          o.temp s.key = .ok v →
          (s, (⟨s, v, max 0 v⟩ : AppleComponentSt)) ∈ l)) := by
  intro o cpuName catalog
  constructor
  · intro e he
    unfold appleNew at he
    rcases h1 : o.newRes with e1 | u
    · rw [h1] at he
      injection he with he2
      subst he2
      exact .inl rfl
    · rw [h1] at he
      rcases h2 : o.keysRes with e2 | keys
      · rw [h2] at he
        injection he with he2
        subst he2
        exact .inr rfl
      · rw [h2] at he
        cases he
  · intro u keys h1 h2
    refine ⟨catalog.filterMap (appleSelect o keys (read_platform cpuName)), ?_, ?_, ?_⟩
    · unfold appleNew
      rw [h1, h2]
    · intro s _ hbad pr hpr heq
      rcases List.mem_filterMap.mp hpr with ⟨a, _, hsel⟩
      have hfst : pr.1 = a := appleSelect_fst o keys (read_platform cpuName) a pr hsel
      rw [heq] at hfst
      rw [← hfst] at hsel
      rw [appleSelect_none_of_bad o keys (read_platform cpuName) s hbad] at hsel
      cases hsel
    · intro s hs v g1 g2 g3 g4
      exact List.mem_filterMap.mpr
        ⟨s, hs, appleSelect_some_of_good o keys (read_platform cpuName) s v g1 g2 g3 g4⟩

/-- Catalog entry for the C6 witness (the `TC0P` "CPU proximity" entry
of the static table). -/
def c6sensor : Sensor :=
  ⟨"TC0P", "CPU proximity", .Temperature, PLATFORM_ALL, false, .Cpu⟩

/-- Oracle for the C6 witness: session opens, one live key, reads
succeed with 25. -/
def c6oracle : AppleOracle := ⟨.ok (), .ok ["TC0P"], fun _ => .ok 25⟩

/-- C6 witness: the discovery characterisation applied to a one-entry
catalog with a live, readable key. -/
theorem claim_C6_discovery_swallows_witness :
    ∃ l, appleNew c6oracle "Apple M1" [c6sensor] = .ok l ∧
      (∀ s ∈ [c6sensor],
        (["TC0P"].contains s.key = false ∨
          platformContains s.platforms (read_platform "Apple M1") = false ∨
          (s.component_type ≠ .Cpu ∧ s.component_type ≠ .Gpu) ∨
          (∃ e, c6oracle.temp s.key = .error e)) →
        ∀ pr ∈ l, pr.1 ≠ s) ∧
      (∀ s ∈ [c6sensor], ∀ v : ℚ, ["TC0P"].contains s.key = true →
        platformContains s.platforms (read_platform "Apple M1") = true →
        (s.component_type = .Cpu ∨ s.component_type = .Gpu) →
        c6oracle.temp s.key = .ok v →
        (s, (⟨s, v, max 0 v⟩ : AppleComponentSt)) ∈ l) :=
  (claim_C6_discovery_swallows c6oracle "Apple M1" [c6sensor]).2 () ["TC0P"] rfl rfl

/-! ## Claim C8 — hwmon per-chip rate limiting -/

/-- A chip read before whose elapsed time is under its interval is
skipped: `Ok`, state untouched, no scan. -/
theorem hwmon_skip_by_wait (st : HwmonState) (now : ℚ) (fs : HwmonFs)
    (h1 : st.wait = true) (h2 : now - st.last_update < st.update_interval) :
    read_temperatures st now fs = (.ok (), st, false) := by
  have hs : should_read st now fs = false := by
    unfold should_read
    rw [if_pos ⟨by simp [h1], h2⟩]
  unfold read_temperatures
  rw [if_neg (by simp [hs])]

/-- C8: a chip read before is skipped (`read_temperatures` returns `Ok`
without scanning, cached readings intact) while elapsed time is under
its declared interval; and whenever a `power_state` file exists whose
content is neither `"D0"` nor `"unknown"`, the chip is skipped
regardless of elapsed time.  A chip with a 500 ms interval and no
`power_state` file, refreshed twice within 500 ms, performs exactly one
actual file scan: the first call scans, and the second is a no-op
returning the previous state. -/
theorem claim_C8_rate_limiting :
    (∀ (st : HwmonState) (now : ℚ) (fs : HwmonFs),
      st.wait = true → now - st.last_update < st.update_interval →
      read_temperatures st now fs = (.ok (), st, false)) ∧
    (∀ (st : HwmonState) (now : ℚ) (fs : HwmonFs) (s : String),
      fs.powerState = some s → trimS s ≠ "D0" → trimS s ≠ "unknown" →
      read_temperatures st now fs = (.ok (), st, false)) ∧
    (∀ (st : HwmonState) (fs : HwmonFs) (t0 : ℚ),
      st.update_interval = 500 → st.wait = false → fs.powerState = none →
      (read_temperatures st t0 fs).2.2 = true ∧
      (∀ (st1 : HwmonState) (t1 : ℚ) (fs2 : HwmonFs),
        read_temperatures st t0 fs = (.ok (), st1, true) → t1 - t0 < 500 →
        read_temperatures st1 t1 fs2 = (.ok (), st1, false))) := by
  refine ⟨hwmon_skip_by_wait, ?_, ?_⟩
  · intro st now fs s hp h2 h3
    have hs : should_read st now fs = false := by
      unfold should_read
      split
      · rfl
      · rw [hp]
        simp [h2, h3]
    unfold read_temperatures
    rw [if_neg (by simp [hs])]
  · intro st fs t0 hint hwait hp
    have hs : should_read st t0 fs = true := by
      unfold should_read
      rw [if_neg (by simp [hwait]), hp]
    constructor
    · unfold read_temperatures
      rw [if_pos (by simp [hs])]
      rcases hsc : scanEntries fs st.chipName fs.entries st.readings with ⟨r, acc⟩
      cases r <;> simp
    · intro st1 t1 fs2 heq hlt
      unfold read_temperatures at heq
      rw [if_pos (by simp [hs])] at heq
      rcases hsc : scanEntries fs st.chipName fs.entries st.readings with ⟨r, acc⟩
      rw [hsc] at heq
      cases r with
      | error e => simp at heq
      | ok acc2 =>
        simp only [Prod.mk.injEq] at heq
        have hst1 : st1 = { st with readings := acc2, last_update := t0, wait := true } :=
          heq.2.1.symm
        apply hwmon_skip_by_wait
        · rw [hst1]
        · rw [hst1]
          simpa [hint] using hlt

/-- Filesystem for the C8 witness: no `power_state` file, an empty chip
directory. -/
def c8fs : HwmonFs := ⟨none, [], fun _ => none⟩

/-- Chip state for the C8 witness: `update_interval = 500` ms, never
read yet. -/
def c8st : HwmonState := ⟨none, 500, 0, false, []⟩

/-- C8 witness: with a 500 ms interval and no `power_state` file, the
first refresh at `t = 0` scans; the second at `t = 100` is a no-op
returning the cached state. -/
theorem claim_C8_rate_limiting_witness :
    read_temperatures ⟨none, 500, 0, true, []⟩ 100 c8fs =
      (.ok (), ⟨none, 500, 0, true, []⟩, false) :=
  (claim_C8_rate_limiting.2.2 c8st c8fs 0 rfl rfl rfl).2 ⟨none, 500, 0, true, []⟩ 100 c8fs
    (by norm_num [read_temperatures, should_read, scanEntries, c8st, c8fs])
    (by norm_num)

end Tmt
